import Mathlib

/-!
Shallow embedding of the `mserver` Go package (boseji/mserver): the managed
HTTP-server lifecycle controller in `mserver.go` and the hashing helpers.

Modelling conventions:
- A Go `error` value is `Option GoErr`, with `none` for Go's `nil`.
- External primitives (`http.Server.Shutdown`, `http.Server.ListenAndServe`)
  are modelled by passing their result in as a parameter; their invocation is
  recorded in an event trace, listed in execution order.
- The `stop chan os.Signal` field is modelled by its observable state
  (nil / open / closed). A receive on a nil channel blocks forever in Go;
  a receive on a closed channel proceeds immediately; a receive on an open
  unbuffered channel proceeds only when a sender is present. `chanRecvProceeds`
  encodes exactly this.
- For the concurrency analysis of `stopServerInternal`, the function body is
  additionally decomposed into its atomic shared-memory steps (`stepThread`)
  and executed under an explicit interleaving schedule (`schedRun`).
-/

namespace MserverSpec

/-- Go error values relevant to the package: the distinguished
`ErrServerNotStarted` sentinel (mserver.go line 51) and arbitrary other error
values (results of `ListenAndServe` or `Server.Shutdown`), tagged by a code. -/
inductive GoErr where
  | serverNotStarted : GoErr
  | errValue : Nat → GoErr
deriving DecidableEq, Repr

/-- State of the `stop chan os.Signal` field: `nilChan` is the zero value (no
channel ever made), `opened` is a live channel created by `make`, `closed` is
a closed channel. -/
inductive ChanState where
  | nilChan : ChanState
  | opened : ChanState
  | closed : ChanState
deriving DecidableEq, Repr

/-- The `http.Server` value built by `StartServer`: its `Addr` field and its
`Handler` field (the mux, modelled by an optional identifier, `none` = nil). -/
structure GoHttpServer where
  addr : String
  handler : Option Nat
deriving DecidableEq, Repr

/-- Shallow embedding of the `Mserver` struct (mserver.go lines 42-48):
`Server`, `stop`, `started`, `ShutdownTimeout`, `Error`. Durations are Go
`time.Duration`, i.e. a signed 64-bit count of nanoseconds, modelled as `Int`. -/
structure MState where
  server : Option GoHttpServer
  stop : ChanState
  started : Bool
  shutdownTimeout : Int
  error : Option GoErr
deriving DecidableEq, Repr

/-- Zero value of `Mserver` (`&Mserver{}` as in `NewMserver` before it calls
`StartDefaultServer`): `started = false`, `Error = nil`, `stop = nil`. -/
def zeroMserver : MState :=
  { server := none, stop := ChanState.nilChan, started := false,
    shutdownTimeout := 0, error := none }

/-- Observable side effects of the lifecycle functions, recorded in traces in
execution order. `serverShutdown d` is a call to `p.Server.Shutdown(ctx)` with
a context deadline of `d` nanoseconds; `closeStop` is `close(p.stop)`;
`spawnServingTask` is `go p.startGoServerInternal()`. -/
inductive Event where
  | makeStop : Event
  | signalNotify : Event
  | setTimeout : Int → Event
  | setServer : String → Event
  | setErrorNil : Event
  | spawnServingTask : Event
  | listenAndServe : Event
  | setStartedFalse : Event
  | serverShutdown : Int → Event
  | closeStop : Event
  | signalStopCall : Event
  | sendKill : Event
deriving DecidableEq, Repr

/-- Embedding of `stopServerInternal` (mserver.go lines 63-83). The result of
the external call `p.Server.Shutdown(ctx)` is the parameter `shutdownRes`.
Returns the post-state, the Go return value, and the event trace in execution
order: the guard `if !p.started` exits early with `ErrServerNotStarted`;
otherwise the function sets `p.started = false`, then calls `Server.Shutdown`
with a deadline of `p.ShutdownTimeout` and assigns its result to `p.Error`,
and the deferred `close(p.stop)` runs last; the return value is `p.Error`. -/
def stopServerInternal (p : MState) (shutdownRes : Option GoErr) :
    MState × Option GoErr × List Event :=
  if p.started = false then
    (p, some GoErr.serverNotStarted, [])
  else
    ({ p with started := false, error := shutdownRes, stop := ChanState.closed },
     shutdownRes,
     [Event.setStartedFalse, Event.serverShutdown p.shutdownTimeout,
      Event.closeStop])

/-- Embedding of `startGoServerInternal` (mserver.go lines 95-109), the serving
task. `serveRes` is the result of the external blocking call
`p.Server.ListenAndServe()`; `shutdownRes` is the result `Server.Shutdown`
would produce if reached. The body: re-entry guard on `p.started`; then
`p.started = true`; then `p.Error = p.Server.ListenAndServe()`; then
`if p.Error != nil { p.stopServerInternal() }`. -/
def startGoServerInternal (p : MState) (serveRes shutdownRes : Option GoErr) :
    MState × List Event :=
  if p.started = true then
    (p, [])
  else
    let p2 : MState := { p with started := true, error := serveRes }
    if p2.error ≠ none then
      let r := stopServerInternal p2 shutdownRes
      (r.1, Event.listenAndServe :: r.2.2)
    else
      (p2, [Event.listenAndServe])

/-- Embedding of `StartServer` (mserver.go lines 133-160). The guard is the
source's literal condition `len(addr) == 0 || timeout == (0*time.Second) ||
mux == nil`; on valid input the function makes the stop channel, registers it
for signals, stores the timeout, builds the `http.Server`, sets `p.Error =
nil`, and spawns the serving task, returning immediately. -/
def StartServer (p : MState) (addr : String) (mux : Option Nat) (timeout : Int) :
    MState × List Event :=
  if addr.length = 0 ∨ timeout = 0 ∨ mux = none then
    (p, [])
  else
    ({ p with stop := ChanState.opened,
              shutdownTimeout := timeout,
              server := some { addr := addr, handler := mux },
              error := none },
     [Event.makeStop, Event.signalNotify, Event.setTimeout timeout,
      Event.setServer addr, Event.setErrorNil, Event.spawnServingTask])

/-- Identifier standing for `http.DefaultServeMux` (a non-nil mux value). -/
def defaultServeMux : Nat := 0

/-- Embedding of `StartDefaultServer` (mserver.go lines 118-122): delegates to
`StartServer` with `http.DefaultServeMux`. -/
def StartDefaultServer (p : MState) (addr : String) (timeout : Int) :
    MState × List Event :=
  StartServer p addr (some defaultServeMux) timeout

/-- Semantics of the Go receive `<-p.stop`, by channel state: a receive on a
nil channel blocks forever; on a closed channel it proceeds immediately; on an
open unbuffered channel it proceeds exactly when a sender is present
(`senderExists`). Returns `true` when the receive completes. -/
def chanRecvProceeds : ChanState → Bool → Bool
  | ChanState.nilChan, _ => false
  | ChanState.opened, senderExists => senderExists
  | ChanState.closed, _ => true

/-- Outcome of a `GracefulStop` call: either the caller stays blocked in the
receive `<-p.stop` (no completing sender), or the call returns with a final
state, a Go return value, and the events it performed. -/
inductive GsResult where
  | blocked : GsResult
  | ret : MState → Option GoErr → List Event → GsResult
deriving DecidableEq, Repr

/-- Code of `GracefulStop` after the optional wait (mserver.go lines 180-188):
the `if !p.started` re-entry guard returning `ErrServerNotStarted`, else
`return p.stopServerInternal()`. -/
def gracefulStopAfterWait (p : MState) (shutdownRes : Option GoErr) : GsResult :=
  if p.started = false then
    GsResult.ret p (some GoErr.serverNotStarted) []
  else
    let r := stopServerInternal p shutdownRes
    GsResult.ret r.1 r.2.1 r.2.2

/-- Embedding of `GracefulStop` (mserver.go lines 172-189): if
`waitForInterrupt && p.Error == nil` it performs `<-p.stop` (blocking per
`chanRecvProceeds`), then runs the guarded shutdown. `senderExists` says
whether a sender (OS signal delivery or `ForceStop`) ever completes the
receive on an open channel; `shutdownRes` is the external `Server.Shutdown`
result used if shutdown is reached. -/
def GracefulStop (p : MState) (waitForInterrupt : Bool) (senderExists : Bool)
    (shutdownRes : Option GoErr) : GsResult :=
  if waitForInterrupt = true ∧ p.error = none then
    if chanRecvProceeds p.stop senderExists = false then
      GsResult.blocked
    else
      gracefulStopAfterWait p shutdownRes
  else
    gracefulStopAfterWait p shutdownRes

/-- Outcome of a `ForceStop` call: returns, or stays blocked in the unbuffered
send `p.stop <- os.Kill` when no receiver is waiting. -/
inductive FsResult where
  | ret : MState → List Event → FsResult
  | blockedOnSend : MState → List Event → FsResult
deriving DecidableEq, Repr

/-- Embedding of `ForceStop` (mserver.go lines 193-203): `if !p.started`
return immediately; otherwise `signal.Stop(p.stop)` then the unbuffered send
`p.stop <- os.Kill`, which completes only if a receiver is waiting
(`receiverWaiting`). -/
def ForceStop (p : MState) (receiverWaiting : Bool) : FsResult :=
  if p.started = false then
    FsResult.ret p []
  else if receiverWaiting then
    FsResult.ret p [Event.signalStopCall, Event.sendKill]
  else
    FsResult.blockedOnSend p [Event.signalStopCall]

/-- Program counter of one thread executing `stopServerInternal`, decomposed
into its atomic shared-memory steps: the guard read `if !p.started` (the
context construction and defer registrations between the guard and the write
touch no shared state), the write `p.started = false`, the call
`p.Server.Shutdown(ctx)` together with the assignment to `p.Error`, and the
deferred `close(p.stop)` at return. `finished r` holds the Go return value. -/
inductive PC where
  | atGuard : PC
  | atSetFalse : PC
  | atShutdown : PC
  | atClose : PC
  | finished : Option GoErr → PC
deriving DecidableEq, Repr

/-- One atomic step of a thread running `stopServerInternal`, with `res` the
result its own `Server.Shutdown` call would return. Yields the new shared
state, the new program counter, and the events emitted by the step. -/
def stepThread (res : Option GoErr) (s : MState) : PC → MState × PC × List Event
  | PC.atGuard =>
      if s.started = false then
        (s, PC.finished (some GoErr.serverNotStarted), [])
      else
        (s, PC.atSetFalse, [])
  | PC.atSetFalse =>
      ({ s with started := false }, PC.atShutdown, [Event.setStartedFalse])
  | PC.atShutdown =>
      ({ s with error := res }, PC.atClose, [Event.serverShutdown s.shutdownTimeout])
  | PC.atClose =>
      ({ s with stop := ChanState.closed }, PC.finished res, [Event.closeStop])
  | PC.finished r =>
      (s, PC.finished r, [])

/-- Configuration of two threads concurrently executing `stopServerInternal`
on the same `Mserver`: the shared struct and each thread's program counter. -/
structure Conf where
  shared : MState
  pc0 : PC
  pc1 : PC
deriving DecidableEq, Repr

/-- Schedule one atomic step: `tid = false` steps thread 0 (with shutdown
result `res0`), `tid = true` steps thread 1 (with `res1`). -/
def schedStep (res0 res1 : Option GoErr) (c : Conf) (tid : Bool) :
    Conf × List Event :=
  if tid = false then
    let r := stepThread res0 c.shared c.pc0
    ({ shared := r.1, pc0 := r.2.1, pc1 := c.pc1 }, r.2.2)
  else
    let r := stepThread res1 c.shared c.pc1
    ({ shared := r.1, pc0 := c.pc0, pc1 := r.2.1 }, r.2.2)

/-- Run a whole interleaving schedule, concatenating the emitted traces. -/
def schedRun (res0 res1 : Option GoErr) (c : Conf) : List Bool → Conf × List Event
  | [] => (c, [])
  | t :: ts =>
      let r := schedStep res0 res1 c t
      let r2 := schedRun res0 res1 r.1 ts
      (r2.1, r.2 ++ r2.2)

/-- Recogniser for `Server.Shutdown` invocation events. -/
def isShutdownEv : Event → Bool
  | Event.serverShutdown _ => true
  | _ => false

/-- Recogniser for `close(p.stop)` events. -/
def isCloseEv : Event → Bool
  | Event.closeStop => true
  | _ => false

/-- Number of `Server.Shutdown` invocations in a trace. -/
def shutdownCount (evs : List Event) : Nat := (evs.filter isShutdownEv).length

/-- Number of `close(p.stop)` executions in a trace. -/
def closeCount (evs : List Event) : Nat := (evs.filter isCloseEv).length

/-- A concrete `Mserver` in the Running state: the state reached after
`StartServer "h" mux 5ns` and the serving task's `p.started = true` write. -/
def runningM : MState :=
  { server := some { addr := "h", handler := some 0 },
    stop := ChanState.opened, started := true,
    shutdownTimeout := 5, error := none }

/-- Embedding of `bytes.Buffer`, modelled by its unread byte contents (the
portion between the read offset and the end). -/
structure Buffer where
  data : List Nat
deriving DecidableEq, Repr

/-- Length of the unread portion of a buffer (`Buffer.Len()`). -/
def Buffer.len (b : Buffer) : Nat := b.data.length

/-- Semantics of `io.Copy(m, data)` where `m` is a `hash.Hash` (absorbed bytes
`h`) and `data` a `bytes.Buffer`: reads `data` until EOF, writing everything
read into the hash. Returns the hash state and the drained source buffer. -/
def ioCopy (h : List Nat) (src : Buffer) : List Nat × Buffer :=
  (h ++ src.data, { data := [] })

/-- Stand-in for the standard-library digest finalisation (`m.Sum(nil)` of
`crypto/sha1`, `crypto/sha256`, `crypto/sha512`, `crypto/md5`), tagged by
algorithm name. The digest computation is an external collaborator outside
this package; the claims here depend only on how the helpers consume their
input buffer, never on the digest's value, so it is modelled as an arbitrary
fixed function of the absorbed bytes. -/
def stdlibSum (alg : String) (absorbed : List Nat) : List Nat :=
  alg.length :: absorbed

/-- Generic body shared by all eight hashing helpers in the source:
`m := alg.New(); io.Copy(m, data); return bytes.NewBuffer(m.Sum(nil))`.
Returns the fresh result buffer together with the post-state of the `data`
buffer the caller passed by pointer. -/
def hashHelper (alg : String) (data : Buffer) : Buffer × Buffer :=
  let m : List Nat := []
  let r := ioCopy m data
  ({ data := stdlibSum alg r.1 }, r.2)

/-- Embedding of `Sha1` (returns the hash buffer and the mutated input). -/
def Sha1 (data : Buffer) : Buffer × Buffer := hashHelper "sha1" data

/-- Embedding of `Sha256`. -/
def Sha256 (data : Buffer) : Buffer × Buffer := hashHelper "sha256" data

/-- Embedding of `Sha224`. -/
def Sha224 (data : Buffer) : Buffer × Buffer := hashHelper "sha224" data

/-- Embedding of `Sha384`. -/
def Sha384 (data : Buffer) : Buffer × Buffer := hashHelper "sha384" data

/-- Embedding of `Sha512`. -/
def Sha512 (data : Buffer) : Buffer × Buffer := hashHelper "sha512" data

/-- Embedding of `Sha512_224`. -/
def Sha512_224 (data : Buffer) : Buffer × Buffer := hashHelper "sha512224" data

/-- Embedding of `Sha512_256`. -/
def Sha512_256 (data : Buffer) : Buffer × Buffer := hashHelper "sha512256" data

/-- Embedding of `Md5`. -/
def Md5 (data : Buffer) : Buffer × Buffer := hashHelper "md5" data

/-- Faithfulness of the step decomposition: running a single thread of the
`stepThread` machine to completion, with the other thread inactive, produces
exactly the state and trace of the monolithic `stopServerInternal`. -/
theorem stepThread_run_matches_stopServerInternal (p : MState) (res : Option GoErr) :
    (schedRun res res { shared := p, pc0 := PC.atGuard, pc1 := PC.finished none }
        [false, false, false, false]).1.shared = (stopServerInternal p res).1 ∧
    (schedRun res res { shared := p, pc0 := PC.atGuard, pc1 := PC.finished none }
        [false, false, false, false]).2 = (stopServerInternal p res).2.2 := by
  by_cases h : p.started = false <;>
    simp [schedRun, schedStep, stepThread, stopServerInternal, h]

/-- C1: the claim asserts that for concurrent shutdown triggers racing into
`stopServerInternal` on one started Mserver, `Server.Shutdown` is invoked
exactly once and the stop channel is closed exactly once. The guard
`if !p.started` is a bare-boolean read with the write `p.started = false`
only coming later, so under the interleaving in which both racers evaluate
the guard before either writes (schedule
`[false, true, false, false, false, true, true, true]` from a Running state),
both proceed: the trace contains two `Server.Shutdown` invocations and two
`close(p.stop)` executions (the second `close` panics in Go). This exhibits
the race on the concrete schedule; the spec itself flags the bare flag as a
defect of the source. -/
theorem concurrent_stop_double_shutdown :
    shutdownCount (schedRun none none
      { shared := runningM, pc0 := PC.atGuard, pc1 := PC.atGuard }
      [false, true, false, false, false, true, true, true]).2 = 2 ∧
    closeCount (schedRun none none
      { shared := runningM, pc0 := PC.atGuard, pc1 := PC.atGuard }
      [false, true, false, false, false, true, true, true]).2 = 2 := by
  decide

/-- C2 counterexample: a negative timeout is not rejected by the guard, which
tests `timeout == (0*time.Second)` only. `StartServer` on the zero Mserver
with address `"h"`, a non-nil mux and timeout `-1` modifies the struct and
spawns the serving task, refuting the claim that a non-positive timeout is a
silent no-op. -/
theorem StartServer_negative_timeout_cex :
    (StartServer zeroMserver "h" (some 0) (-1)).1 ≠ zeroMserver ∧
    Event.spawnServingTask ∈ (StartServer zeroMserver "h" (some 0) (-1)).2 := by
  decide

/-- C2 (amended): `StartServer` is a silent no-op — state unchanged, no
events, no serving task spawned — exactly when the address is empty, the mux
is nil, or the timeout is exactly zero; negative timeouts pass the guard. -/
theorem StartServer_guard_noop (p : MState) (addr : String) (mux : Option Nat)
    (timeout : Int) (h : addr.length = 0 ∨ mux = none ∨ timeout = 0) :
    StartServer p addr mux timeout = (p, []) := by
  unfold StartServer
  rcases h with h | h | h <;> simp [h]

/-- Witness for C2 at the concrete input: empty address, mux present,
timeout 5. -/
theorem StartServer_guard_noop_witness :
    ("".length = 0 ∨ (some 0 : Option Nat) = none ∨ (5 : Int) = 0) ∧
    StartServer zeroMserver "" (some 0) 5 = (zeroMserver, []) :=
  ⟨Or.inl rfl, StartServer_guard_noop zeroMserver "" (some 0) 5 (Or.inl rfl)⟩

/-- C3 counterexample: when `ListenAndServe` returns nil, the serving task
does NOT invoke `stopServerInternal` (the call is guarded by
`if p.Error != nil`): the trace holds no shutdown events and the server is
left with `started = true`, refuting the claim of an unconditional
invocation. -/
theorem startGo_nil_error_skips_shutdown_cex :
    (startGoServerInternal (StartServer zeroMserver "h" (some 0) 5).1 none none).2 =
      [Event.listenAndServe] ∧
    (startGoServerInternal (StartServer zeroMserver "h" (some 0) 5).1 none none).1.started
      = true := by
  decide

/-- C3 (amended): the serving task records the result of `ListenAndServe`
into `Error` and invokes `stopServerInternal` if and only if that result is
non-nil. On a nil result it returns with `started` still true and `Error`
nil; on a non-nil result the shutdown path runs, leaving `started = false`
and `Error` overwritten with the `Server.Shutdown` result. -/
theorem startGo_shutdown_iff_error (p : MState) (serveRes shutdownRes : Option GoErr)
    (h : p.started = false) :
    (Event.serverShutdown p.shutdownTimeout ∈
        (startGoServerInternal p serveRes shutdownRes).2 ↔ serveRes ≠ none) ∧
    (serveRes = none →
      (startGoServerInternal p serveRes shutdownRes).1 =
        { p with started := true, error := none }) ∧
    (serveRes ≠ none →
      (startGoServerInternal p serveRes shutdownRes).1.error = shutdownRes ∧
      (startGoServerInternal p serveRes shutdownRes).1.started = false) := by
  cases serveRes with
  | none => simp [startGoServerInternal, h]
  | some e => simp [startGoServerInternal, stopServerInternal, h]

/-- Witness for C3 at the zero Mserver with a non-nil serve error and nil
shutdown result. -/
theorem startGo_shutdown_iff_error_witness :
    zeroMserver.started = false ∧
    ((Event.serverShutdown zeroMserver.shutdownTimeout ∈
        (startGoServerInternal zeroMserver (some (GoErr.errValue 1)) none).2 ↔
        (some (GoErr.errValue 1) : Option GoErr) ≠ none) ∧
     ((some (GoErr.errValue 1) : Option GoErr) = none →
       (startGoServerInternal zeroMserver (some (GoErr.errValue 1)) none).1 =
         { zeroMserver with started := true, error := none }) ∧
     ((some (GoErr.errValue 1) : Option GoErr) ≠ none →
       (startGoServerInternal zeroMserver (some (GoErr.errValue 1)) none).1.error = none ∧
       (startGoServerInternal zeroMserver (some (GoErr.errValue 1)) none).1.started = false)) :=
  ⟨rfl, startGo_shutdown_iff_error zeroMserver (some (GoErr.errValue 1)) none rfl⟩

/-- C4 counterexample: on a never-started Mserver (zero value: `started`
false, `Error` nil, `stop` nil) a call to `GracefulStop(true)` reaches
`<-p.stop` on a nil channel and blocks forever — whether or not any sender
ever exists — refuting the claim that the call terminates without blocking
for either value of `waitForInterrupt`. -/
theorem GracefulStop_neverStarted_blocks_cex :
    GracefulStop zeroMserver true false none = GsResult.blocked ∧
    GracefulStop zeroMserver true true none = GsResult.blocked := by
  decide

/-- C4 (amended): on a never-started Mserver (`started` false, `Error` nil,
`stop` nil), `GracefulStop(false)` terminates without blocking and returns
`ErrServerNotStarted` with no side effects, while `GracefulStop(true)`
blocks forever in the receive on the nil stop channel. -/
theorem GracefulStop_neverStarted (p : MState) (sender : Bool) (res : Option GoErr)
    (hs : p.started = false) (hc : p.stop = ChanState.nilChan) (he : p.error = none) :
    GracefulStop p false sender res = GsResult.ret p (some GoErr.serverNotStarted) [] ∧
    GracefulStop p true sender res = GsResult.blocked := by
  constructor
  · simp [GracefulStop, gracefulStopAfterWait, hs]
  · simp [GracefulStop, he, hc, chanRecvProceeds]

/-- Witness for C4 at the zero-value Mserver. -/
theorem GracefulStop_neverStarted_witness :
    zeroMserver.started = false ∧ zeroMserver.stop = ChanState.nilChan ∧
    zeroMserver.error = none ∧
    (GracefulStop zeroMserver false false none =
       GsResult.ret zeroMserver (some GoErr.serverNotStarted) [] ∧
     GracefulStop zeroMserver true false none = GsResult.blocked) :=
  ⟨rfl, rfl, rfl, GracefulStop_neverStarted zeroMserver false none rfl rfl rfl⟩

/-- C5: a call to `stopServerInternal` with `started = false` returns
`ErrServerNotStarted` immediately with no side effects: the state is returned
unchanged (every field intact) and the event trace is empty, so neither
`Server.Shutdown` nor `close(p.stop)` happens. -/
theorem stopServerInternal_notStarted_noop (p : MState) (res : Option GoErr)
    (h : p.started = false) :
    stopServerInternal p res = (p, some GoErr.serverNotStarted, []) := by
  simp [stopServerInternal, h]

/-- Witness for C5 at the zero-value Mserver. -/
theorem stopServerInternal_notStarted_noop_witness :
    zeroMserver.started = false ∧
    stopServerInternal zeroMserver none = (zeroMserver, some GoErr.serverNotStarted, []) :=
  ⟨rfl, stopServerInternal_notStarted_noop zeroMserver none rfl⟩

/-- C6: a call to `stopServerInternal` with `started = true` produces the
trace, in execution order, `setStartedFalse`, then `Server.Shutdown` with a
deadline equal to the configured `ShutdownTimeout`, then the deferred channel
close — so the write `started = false` strictly precedes the shutdown call —
and records the shutdown result into `Error`, returning exactly that
result. -/
theorem stopServerInternal_running_shutdown (p : MState) (res : Option GoErr)
    (h : p.started = true) :
    stopServerInternal p res =
      ({ p with started := false, error := res, stop := ChanState.closed }, res,
       [Event.setStartedFalse, Event.serverShutdown p.shutdownTimeout,
        Event.closeStop]) := by
  simp [stopServerInternal, h]

/-- Witness for C6 at a concrete Running Mserver with a non-nil shutdown
result. -/
theorem stopServerInternal_running_shutdown_witness :
    runningM.started = true ∧
    stopServerInternal runningM (some (GoErr.errValue 7)) =
      ({ runningM with started := false, error := some (GoErr.errValue 7),
                       stop := ChanState.closed },
       some (GoErr.errValue 7),
       [Event.setStartedFalse, Event.serverShutdown runningM.shutdownTimeout,
        Event.closeStop]) :=
  ⟨rfl, stopServerInternal_running_shutdown runningM (some (GoErr.errValue 7)) rfl⟩

/-- C7: once `stopServerInternal` has completed on a running Mserver (leaving
`started = false` and the stop channel closed), every later `GracefulStop`
call — for any `waitForInterrupt`, any sender situation, and any would-be
shutdown result — terminates (a receive on the closed channel proceeds
immediately) and returns `ErrServerNotStarted` with no further events: the
terminal state is idempotent. -/
theorem GracefulStop_after_shutdown_idempotent (p : MState)
    (res res' : Option GoErr) (wfi sender : Bool) (h : p.started = true) :
    GracefulStop (stopServerInternal p res).1 wfi sender res' =
      GsResult.ret (stopServerInternal p res).1 (some GoErr.serverNotStarted) [] := by
  have hq : (stopServerInternal p res).1 =
      { p with started := false, error := res, stop := ChanState.closed } := by
    simp [stopServerInternal, h]
  rw [hq]
  cases wfi <;> cases res <;>
    simp [GracefulStop, gracefulStopAfterWait, chanRecvProceeds]

/-- Witness for C7 at a concrete Running Mserver, with both shutdown results
nil and a waiting second call. -/
theorem GracefulStop_after_shutdown_idempotent_witness :
    runningM.started = true ∧
    GracefulStop (stopServerInternal runningM none).1 true false none =
      GsResult.ret (stopServerInternal runningM none).1
        (some GoErr.serverNotStarted) [] :=
  ⟨rfl, GracefulStop_after_shutdown_idempotent runningM none none true false rfl⟩

/-- C8: `ForceStop` on an Mserver that never reached Running (`started`
false) returns immediately with the state unchanged and an empty trace: no
`signal.Stop`, no send on the stop channel, no panic and no blocking,
regardless of whether a receiver is waiting. -/
theorem ForceStop_notStarted_noop (p : MState) (receiverWaiting : Bool)
    (h : p.started = false) :
    ForceStop p receiverWaiting = FsResult.ret p [] := by
  simp [ForceStop, h]

/-- Witness for C8 at the zero-value Mserver. -/
theorem ForceStop_notStarted_noop_witness :
    zeroMserver.started = false ∧
    ForceStop zeroMserver false = FsResult.ret zeroMserver [] :=
  ⟨rfl, ForceStop_notStarted_noop zeroMserver false rfl⟩

/-- C9: every hashing helper (`Sha1`, `Sha224`, `Sha256`, `Sha384`, `Sha512`,
`Sha512_224`, `Sha512_256`, `Md5`) drains its argument: after the call the
input `bytes.Buffer` has remaining length 0, because each helper consumes the
buffer through `io.Copy`. -/
theorem hash_helpers_drain_input (b : Buffer) :
    (Sha1 b).2.len = 0 ∧ (Sha224 b).2.len = 0 ∧ (Sha256 b).2.len = 0 ∧
    (Sha384 b).2.len = 0 ∧ (Sha512 b).2.len = 0 ∧ (Sha512_224 b).2.len = 0 ∧
    (Sha512_256 b).2.len = 0 ∧ (Md5 b).2.len = 0 := by
  simp [Sha1, Sha224, Sha256, Sha384, Sha512, Sha512_224, Sha512_256, Md5,
        hashHelper, ioCopy, Buffer.len]

/-- C10: `StartServer` on valid parameters resets `Error` to nil, and does so
before the serving task is spawned: the post-state's `error` is `none`, the
event trace places `setErrorNil` before `spawnServingTask`, and consequently
a subsequent `GracefulStop(true)` with no pending sender waits (blocks) on
the freshly made channel instead of skipping the wait because of a stale
error from a previous use of the struct. -/
theorem StartServer_resets_error_before_spawn (p : MState) (addr : String)
    (m : Nat) (timeout : Int) (res : Option GoErr)
    (ha : addr.length ≠ 0) (ht : timeout ≠ 0) :
    (StartServer p addr (some m) timeout).1.error = none ∧
    (StartServer p addr (some m) timeout).2 =
      [Event.makeStop, Event.signalNotify, Event.setTimeout timeout,
       Event.setServer addr, Event.setErrorNil, Event.spawnServingTask] ∧
    GracefulStop (StartServer p addr (some m) timeout).1 true false res =
      GsResult.blocked := by
  simp [StartServer, ha, ht, GracefulStop, chanRecvProceeds]

/-- Witness for C10 at the zero-value Mserver with a previously stored error
replaced by a fresh start. -/
theorem StartServer_resets_error_before_spawn_witness :
    ("h".length ≠ 0) ∧ ((5 : Int) ≠ 0) ∧
    ((StartServer zeroMserver "h" (some 0) 5).1.error = none ∧
     (StartServer zeroMserver "h" (some 0) 5).2 =
       [Event.makeStop, Event.signalNotify, Event.setTimeout 5,
        Event.setServer "h", Event.setErrorNil, Event.spawnServingTask] ∧
     GracefulStop (StartServer zeroMserver "h" (some 0) 5).1 true false none =
       GsResult.blocked) :=
  ⟨by decide, by decide,
   StartServer_resets_error_before_spawn zeroMserver "h" 0 5 none
     (by decide) (by decide)⟩

end MserverSpec
